import Mathlib

/-!
Shallow embedding of `examples/hyperparameter-optimization.ipynb` from the
scikit-optimize repository: a notebook that tunes a
`GradientBoostingRegressor` with `gp_minimize`.

Two levels of modelling:

* a syntactic, statement-level model of the notebook's code cells (the
  order of top-level operations, the single `gp_minimize` call site, the
  declared search space, the `n_jobs` flag);
* a semantic model of the user-authored `objective` closure, where the
  external `cross_val_score` call is an abstract fallible oracle
  (`EstimatorParams → Except E (List ℚ)`) and Python exception
  propagation is the `Except` error channel.  Real-valued scores are
  modelled over `ℚ`.
-/

namespace SkoptExample

/-- A search-space dimension, as declared in the notebook with
`skopt.space.Integer(low, high, name=...)` or
`skopt.space.Real(low, high, prior, name=...)`.  The Python float bound
`10**-5` is modelled as the rational `1/100000`. -/
inductive Dim where
  | integer (low high : Int) (nm : String)
  | real (low high : ℚ) (prior : String) (nm : String)
deriving DecidableEq

/-- The name of a dimension (its `name=` keyword argument). -/
def dimName : Dim → String
  | Dim.integer _ _ nm => nm
  | Dim.real _ _ _ nm => nm

/-- The lower bound of a dimension, as a rational. -/
def dimLow : Dim → ℚ
  | Dim.integer low _ _ => (low : ℚ)
  | Dim.real low _ _ _ => low

/-- The upper bound of a dimension, as a rational. -/
def dimHigh : Dim → ℚ
  | Dim.integer _ high _ => (high : ℚ)
  | Dim.real _ high _ _ => high

/-- The search space declared in the notebook:

```
space  = [Integer(1, 5, name='max_depth'),
          Real(10**-5, 10**0, "log-uniform", name='learning_rate'),
          Integer(1, n_features, name='max_features'),
          Integer(2, 100, name='min_samples_split'),
          Integer(1, 100, name='min_samples_leaf')]
```

`n_features = X.shape[1]` is derived from the loaded dataset, so it is a
parameter of the model (13 for the Boston housing data of the notebook). -/
def space (n_features : Int) : List Dim :=
  [Dim.integer 1 5 "max_depth",
   Dim.real (1/100000) 1 "log-uniform" "learning_rate",
   Dim.integer 1 n_features "max_features",
   Dim.integer 2 100 "min_samples_split",
   Dim.integer 1 100 "min_samples_leaf"]

/-- The hyper-parameter state of the `GradientBoostingRegressor` object
`reg`: the two constructor arguments fixed in the notebook
(`n_estimators=50, random_state=0`) together with the five tuned
parameters named by the search space.  `learning_rate` is a Python
float, modelled as `ℚ`. -/
structure EstimatorParams where
  n_estimators : Int
  random_state : Int
  max_depth : Int
  learning_rate : ℚ
  max_features : Int
  min_samples_split : Int
  min_samples_leaf : Int
deriving DecidableEq

/-- One candidate hyper-parameter configuration: values for the five
dimensions of the declared space, in the estimator's parameter names. -/
structure Config where
  max_depth : Int
  learning_rate : ℚ
  max_features : Int
  min_samples_split : Int
  min_samples_leaf : Int
deriving DecidableEq

/-- Modelled from the spec: `reg.set_params(**params)` — scikit-learn's
`BaseEstimator.set_params` is not under `src/`; per its documented
behaviour ("set estimator parameters") it overwrites exactly the named
parameters and leaves every other parameter of the object unchanged. -/
def set_params (e : EstimatorParams) (c : Config) : EstimatorParams :=
  { e with
    max_depth := c.max_depth
    learning_rate := c.learning_rate
    max_features := c.max_features
    min_samples_split := c.min_samples_split
    min_samples_leaf := c.min_samples_leaf }

/-- The five tuned parameters currently held by the estimator object. -/
def tunedOf (e : EstimatorParams) : Config :=
  { max_depth := e.max_depth
    learning_rate := e.learning_rate
    max_features := e.max_features
    min_samples_split := e.min_samples_split
    min_samples_leaf := e.min_samples_leaf }

/-- `np.mean` on a list of rationals (mean of the per-fold scores). -/
def listMean (xs : List ℚ) : ℚ := xs.sum / (xs.length : ℚ)

/-- One call the `objective` closure makes into the wrapped libraries,
with the arguments it passes. -/
inductive LibCall where
  | setParamsCall (before : EstimatorParams) (cfg : Config)
  | crossValScoreCall (arg : EstimatorParams)
deriving DecidableEq

/-- The body of the user-authored closure

```
def objective(**params):
    reg.set_params(**params)
    return -np.mean(cross_val_score(reg, X, y, cv=5, n_jobs=-1,
                                    scoring="neg_mean_absolute_error"))
```

`cross_val_score(reg, X, y, cv=5, n_jobs=-1, scoring=...)` is an external
library call whose non-`reg` arguments are fixed constants of the
closure, so it is modelled by an oracle `cvs` from the estimator's
parameter state to either a Python exception (`Except.error`) or the
list of per-fold scores.  The result records, in order: the trace of
wrapped-library calls made, the estimator state after the call, and the
returned value (or the propagated exception). -/
def objective (cvs : EstimatorParams → Except E (List ℚ))
    (reg : EstimatorParams) (cfg : Config) :
    List LibCall × EstimatorParams × Except E ℚ :=
  match cvs (set_params reg cfg) with
  | Except.error e =>
      ([LibCall.setParamsCall reg cfg,
        LibCall.crossValScoreCall (set_params reg cfg)],
       set_params reg cfg, Except.error e)
  | Except.ok scores =>
      ([LibCall.setParamsCall reg cfg,
        LibCall.crossValScoreCall (set_params reg cfg)],
       set_params reg cfg, Except.ok (-(listMean scores)))

/-- The estimator state after a sequence of `objective` calls (e.g. the
calls the optimizer makes), starting from the estimator constructed at
top level. -/
def runCalls (cvs : EstimatorParams → Except E (List ℚ))
    (reg0 : EstimatorParams) (cs : List Config) : EstimatorParams :=
  cs.foldl (fun r c => (objective cvs r c).2.1) reg0

/-- Modelled from the spec: the `skopt.utils.use_named_args(space)`
decorator is repository code that is not under `src/`; per the
notebook's own comment ("this decorator allows your objective function
to receive the parameters as keyword arguments") it turns a point — a
list of values, one per dimension — into keyword arguments by pairing
the i-th dimension's declared name with the i-th coordinate. -/
def use_named_args (dims : List Dim) (point : List α) : List (String × α) :=
  (dims.map dimName).zip point

/-- The keyword arguments of the notebook's
`cross_val_score(reg, X, y, cv=5, n_jobs=-1, scoring="neg_mean_absolute_error")`
call, as written. -/
structure CrossValArgs where
  estimator : String
  xArg : String
  yArg : String
  cv : Int
  n_jobs : Int
  scoring : String
deriving DecidableEq

/-- A statement of the `objective` function body, as written. -/
inductive ObjStmt where
  | setParamsStmt (receiver : String)
  | returnNegMeanCrossVal (args : CrossValArgs)
deriving DecidableEq

/-- A top-level statement of one of the notebook's code cells.  Each
constructor is a statement form that actually occurs in the notebook,
carrying the identifiers and literal arguments it is written with. -/
inductive Stmt where
  | magicMatplotlibInline
  | importStmt (module : String) (names : List String)
  | loadBoston (target : String)
  | unpackData (xTarget yTarget source : String)
  | computeNFeatures (target source : String)
  | makeGradientBoostingRegressor (target : String) (n_estimators random_state : Int)
  | assignSpace (target : String) (dims : List Dim)
  | defObjective (decoratorArg : String) (body : List ObjStmt)
  | gpMinimizeCall (target objectiveArg spaceArg : String) (n_calls random_state : Int)
  | formatBestScore (source : String)
  | printBestParams (source : String)
  | plotConvergenceCall (arg : String)
deriving DecidableEq

/-- Code cell 1: `%matplotlib inline` and the numpy/matplotlib imports. -/
def cell1 : List Stmt :=
  [Stmt.magicMatplotlibInline,
   Stmt.importStmt "numpy" ["np"],
   Stmt.importStmt "matplotlib.pyplot" ["plt"]]

/-- Code cell 5: sklearn imports, dataset loading, and construction of
`reg = GradientBoostingRegressor(n_estimators=50, random_state=0)`. -/
def cell5 : List Stmt :=
  [Stmt.importStmt "sklearn.datasets" ["load_boston"],
   Stmt.importStmt "sklearn.ensemble" ["GradientBoostingRegressor"],
   Stmt.importStmt "sklearn.model_selection" ["cross_val_score"],
   Stmt.loadBoston "boston",
   Stmt.unpackData "X" "y" "boston",
   Stmt.computeNFeatures "n_features" "X",
   Stmt.makeGradientBoostingRegressor "reg" 50 0]

/-- Code cell 7: skopt imports, the `space` declaration, and the
decorated definition of `objective`. -/
def cell7 (n_features : Int) : List Stmt :=
  [Stmt.importStmt "skopt.space" ["Real", "Integer"],
   Stmt.importStmt "skopt.utils" ["use_named_args"],
   Stmt.assignSpace "space" (space n_features),
   Stmt.defObjective "space"
     [ObjStmt.setParamsStmt "reg",
      ObjStmt.returnNegMeanCrossVal
        ⟨"reg", "X", "y", 5, -1, "neg_mean_absolute_error"⟩]]

/-- Code cell 10: the skopt import, the single
`res_gp = gp_minimize(objective, space, n_calls=50, random_state=0)`
call, and the best-score format expression. -/
def cell10 : List Stmt :=
  [Stmt.importStmt "skopt" ["gp_minimize"],
   Stmt.gpMinimizeCall "res_gp" "objective" "space" 50 0,
   Stmt.formatBestScore "res_gp"]

/-- Code cell 11: the best-parameters printout. -/
def cell11 : List Stmt :=
  [Stmt.printBestParams "res_gp"]

/-- Code cell 13: the plotting import and `plot_convergence(res_gp)`. -/
def cell13 : List Stmt :=
  [Stmt.importStmt "skopt.plots" ["plot_convergence"],
   Stmt.plotConvergenceCall "res_gp"]

/-- All top-level statements of the notebook's code cells, in execution
order, with `n_features` (derived from the loaded dataset) a parameter. -/
def allStmts (n_features : Int) : List Stmt :=
  cell1 ++ cell5 ++ cell7 n_features ++ cell10 ++ cell11 ++ cell13

/-- The six phases of the notebook's observable flow. -/
inductive Phase where
  | loadData
  | buildEstimator
  | declareBounds
  | defineObj
  | optimize
  | report
deriving DecidableEq

/-- The flow phase a statement belongs to; `none` for statements that
perform no original computation (imports and the matplotlib magic). -/
def phaseOf : Stmt → Option Phase
  | Stmt.magicMatplotlibInline => none
  | Stmt.importStmt _ _ => none
  | Stmt.loadBoston _ => some Phase.loadData
  | Stmt.unpackData _ _ _ => some Phase.loadData
  | Stmt.computeNFeatures _ _ => some Phase.loadData
  | Stmt.makeGradientBoostingRegressor _ _ _ => some Phase.buildEstimator
  | Stmt.assignSpace _ _ => some Phase.declareBounds
  | Stmt.defObjective _ _ => some Phase.defineObj
  | Stmt.gpMinimizeCall _ _ _ _ _ => some Phase.optimize
  | Stmt.formatBestScore _ => some Phase.report
  | Stmt.printBestParams _ => some Phase.report
  | Stmt.plotConvergenceCall _ => some Phase.report

/-- Whether a statement is an import or a notebook magic, i.e. carries
no original computation. -/
def isImportOrMagic : Stmt → Bool
  | Stmt.magicMatplotlibInline => true
  | Stmt.importStmt _ _ => true
  | _ => false

/-- Collapse consecutive equal phases into one, so that a run of
statements belonging to the same flow step counts as that single step. -/
def collapseRuns : List Phase → List Phase
  | [] => []
  | [p] => [p]
  | p :: q :: rest =>
      if p = q then collapseRuns (q :: rest) else p :: collapseRuns (q :: rest)

/-- Every `gp_minimize` call site in a list of statements, with the
argument names and the `n_calls` and `random_state` literals it passes. -/
def gpMinimizeCalls : List Stmt → List (String × String × Int × Int)
  | [] => []
  | Stmt.gpMinimizeCall _ objArg spArg ncalls rstate :: rest =>
      (objArg, spArg, ncalls, rstate) :: gpMinimizeCalls rest
  | _ :: rest => gpMinimizeCalls rest

/-- Every search-space declaration in a list of statements: the bound
variable name and the declared dimensions. -/
def spaceDecls : List Stmt → List (String × List Dim)
  | [] => []
  | Stmt.assignSpace tgt dims :: rest => (tgt, dims) :: spaceDecls rest
  | _ :: rest => spaceDecls rest

/-- The `n_jobs` flags a statement passes into library calls, paired
with the name of the receiving library function. -/
def njobsOfStmt : Stmt → List (String × Int)
  | Stmt.defObjective _ body => body.filterMap fun s =>
      match s with
      | ObjStmt.returnNegMeanCrossVal args => some ("cross_val_score", args.n_jobs)
      | _ => none
  | _ => []

/-- All `n_jobs` flags passed anywhere in a list of statements. -/
def njobsFlags : List Stmt → List (String × Int)
  | [] => []
  | s :: rest => njobsOfStmt s ++ njobsFlags rest

/-- A concrete estimator state: the notebook's constructor arguments
`n_estimators=50, random_state=0` with scikit-learn-style values for
the five tuned parameters. -/
def reg0 : EstimatorParams := ⟨50, 0, 3, 1/10, 13, 2, 1⟩

/-- A concrete candidate configuration (the notebook's reported best). -/
def cfg0 : Config := ⟨2, 789/5000, 13, 2, 1⟩

/-- A concrete successful cross-validation oracle: five per-fold
`neg_mean_absolute_error` scores. -/
def cvsOk : EstimatorParams → Except String (List ℚ) :=
  fun _ => Except.ok [-2, -3, -1, -4, -2]

/-- A concrete failing cross-validation oracle: the fit raises. -/
def cvsErr : EstimatorParams → Except String (List ℚ) :=
  fun _ => Except.error "ValueError"

/-- The estimator state an `objective` call leaves behind is exactly the
state produced by its `set_params` call. -/
theorem objective_state (cvs : EstimatorParams → Except E (List ℚ))
    (reg : EstimatorParams) (cfg : Config) :
    (objective cvs reg cfg).2.1 = set_params reg cfg := by
  unfold objective
  cases h : cvs (set_params reg cfg) <;> rfl

/-- `set_params` only reads the two constructor-fixed fields of the
previous state: estimators agreeing there are mapped to the same state. -/
theorem set_params_congr (reg reg' : EstimatorParams) (cfg : Config)
    (h1 : reg.n_estimators = reg'.n_estimators)
    (h2 : reg.random_state = reg'.random_state) :
    set_params reg cfg = set_params reg' cfg := by
  unfold set_params
  rw [h1, h2]

/-- A sequence of `objective` calls never touches the constructor-fixed
fields of the estimator. -/
theorem runCalls_fixed (cvs : EstimatorParams → Except E (List ℚ))
    (reg0 : EstimatorParams) (cs : List Config) :
    (runCalls cvs reg0 cs).n_estimators = reg0.n_estimators ∧
    (runCalls cvs reg0 cs).random_state = reg0.random_state := by
  induction cs generalizing reg0 with
  | nil => exact ⟨rfl, rfl⟩
  | cons c cs ih =>
      have hstep : (objective cvs reg0 c).2.1 = set_params reg0 c :=
        objective_state cvs reg0 c
      have h := ih ((objective cvs reg0 c).2.1)
      simp only [runCalls, List.foldl_cons] at h ⊢
      rw [h.1, h.2, hstep]
      exact ⟨rfl, rfl⟩

/-- C1: for every candidate configuration on which cross-validation
succeeds, the objective performs exactly the two wrapped-library calls
`set_params` then `cross_val_score` in that order, leaves the estimator
in the `set_params` state, and returns the negation of the mean of the
per-fold cross-validation scores. -/
theorem objective_three_steps (cvs : EstimatorParams → Except E (List ℚ))
    (reg : EstimatorParams) (cfg : Config) (scores : List ℚ)
    (h : cvs (set_params reg cfg) = Except.ok scores) :
    objective cvs reg cfg =
      ([LibCall.setParamsCall reg cfg,
        LibCall.crossValScoreCall (set_params reg cfg)],
       set_params reg cfg, Except.ok (-(listMean scores))) := by
  unfold objective
  rw [h]

/-- Witness for C1 at a concrete oracle, estimator and configuration. -/
theorem objective_three_steps_witness :
    cvsOk (set_params reg0 cfg0) = Except.ok [-2, -3, -1, -4, -2] ∧
    objective cvsOk reg0 cfg0 =
      ([LibCall.setParamsCall reg0 cfg0,
        LibCall.crossValScoreCall (set_params reg0 cfg0)],
       set_params reg0 cfg0, Except.ok (-(listMean [-2, -3, -1, -4, -2]))) :=
  ⟨rfl, objective_three_steps cvsOk reg0 cfg0 [-2, -3, -1, -4, -2] rfl⟩

/-- C6: when the wrapped cross-validation call raises, the objective
raises that same error unchanged and never maps it to a return value. -/
theorem objective_propagates_error (cvs : EstimatorParams → Except E (List ℚ))
    (reg : EstimatorParams) (cfg : Config) (e : E)
    (h : cvs (set_params reg cfg) = Except.error e) :
    (objective cvs reg cfg).2.2 = Except.error e := by
  unfold objective
  rw [h]

/-- Witness for C6 at a concrete failing oracle. -/
theorem objective_propagates_error_witness :
    cvsErr (set_params reg0 cfg0) = Except.error "ValueError" ∧
    (objective cvsErr reg0 cfg0).2.2 = Except.error "ValueError" :=
  ⟨rfl, objective_propagates_error cvsErr reg0 cfg0 "ValueError" rfl⟩

/-- C2: the objective carries no state of its own.  Every state change
it makes is the estimator state handed to the wrapped `set_params`
call, and the outcome of a call (post-state and returned value) at a
given configuration is the same whatever sequence of earlier objective
calls preceded it. -/
theorem objective_no_hidden_state (E : Type) :
    (∀ (cvs : EstimatorParams → Except E (List ℚ))
       (reg : EstimatorParams) (cfg : Config),
        (objective cvs reg cfg).2.1 = set_params reg cfg) ∧
    (∀ (cvs : EstimatorParams → Except E (List ℚ))
       (reg0 : EstimatorParams) (cs cs' : List Config) (cfg : Config),
        (objective cvs (runCalls cvs reg0 cs) cfg).2 =
          (objective cvs (runCalls cvs reg0 cs') cfg).2) := by
  constructor
  · exact fun cvs reg cfg => objective_state cvs reg cfg
  · intro cvs reg0 cs cs' cfg
    have hset : set_params (runCalls cvs reg0 cs) cfg =
        set_params (runCalls cvs reg0 cs') cfg := by
      have h1 := runCalls_fixed cvs reg0 cs
      have h2 := runCalls_fixed cvs reg0 cs'
      exact set_params_congr _ _ cfg (h1.1.trans h2.1.symm) (h1.2.trans h2.2.symm)
    unfold objective
    rw [hset]
    cases h : cvs (set_params (runCalls cvs reg0 cs') cfg) <;> rfl

/-- A list of nonpositive rationals has nonpositive sum. -/
theorem listSum_nonpos (xs : List ℚ) (h : ∀ s ∈ xs, s ≤ 0) : xs.sum ≤ 0 := by
  induction xs with
  | nil => simp
  | cons a t ih =>
      simp only [List.sum_cons]
      have ha := h a (List.mem_cons_self a t)
      have ht := ih fun s hs => h s (List.mem_cons_of_mem a hs)
      linarith

/-- The mean of the pointwise negations is the negated mean. -/
theorem listMean_map_neg (xs : List ℚ) :
    listMean (xs.map (fun s => -s)) = -(listMean xs) := by
  unfold listMean
  rw [List.length_map]
  have hsum : (xs.map (fun s => -s)).sum = -(xs.sum) := by
    induction xs with
    | nil => simp
    | cons a t ih => simp only [List.map_cons, List.sum_cons, ih]; ring
  rw [hsum, neg_div]

/-- C8: because the per-fold `neg_mean_absolute_error` scores are
nonpositive, the objective's return value is the mean of the per-fold
(positive-signed) absolute errors, hence nonnegative. -/
theorem objective_value_nonneg (cvs : EstimatorParams → Except E (List ℚ))
    (reg : EstimatorParams) (cfg : Config) (scores : List ℚ)
    (h : cvs (set_params reg cfg) = Except.ok scores)
    (hs : ∀ s ∈ scores, s ≤ 0) :
    (objective cvs reg cfg).2.2 =
      Except.ok (listMean (scores.map (fun s => -s))) ∧
    0 ≤ listMean (scores.map (fun s => -s)) := by
  constructor
  · unfold objective
    rw [h, listMean_map_neg]
  · rw [listMean_map_neg]
    have hle : listMean scores ≤ 0 := by
      unfold listMean
      exact div_nonpos_iff.mpr
        (Or.inr ⟨listSum_nonpos scores hs, by positivity⟩)
    linarith

/-- Witness for C8 at a concrete oracle with five nonpositive scores. -/
theorem objective_value_nonneg_witness :
    cvsOk (set_params reg0 cfg0) = Except.ok [-2, -3, -1, -4, -2] ∧
    (∀ s ∈ ([-2, -3, -1, -4, -2] : List ℚ), s ≤ 0) ∧
    ((objective cvsOk reg0 cfg0).2.2 =
        Except.ok (listMean (([-2, -3, -1, -4, -2] : List ℚ).map (fun s => -s))) ∧
      0 ≤ listMean (([-2, -3, -1, -4, -2] : List ℚ).map (fun s => -s))) :=
  ⟨rfl, by decide,
   objective_value_nonneg cvsOk reg0 cfg0 [-2, -3, -1, -4, -2] rfl (by decide)⟩

/-- C9: every objective call leaves the shared estimator holding exactly
the configuration it was called with, so after any sequence of calls the
estimator holds the most recently evaluated configuration — which can be
strictly worse than an earlier (better) one. -/
theorem estimator_holds_last_config (E : Type) :
    (∀ (cvs : EstimatorParams → Except E (List ℚ))
       (reg : EstimatorParams) (cfg : Config),
        tunedOf ((objective cvs reg cfg).2.1) = cfg) ∧
    (∀ (cvs : EstimatorParams → Except E (List ℚ))
       (reg0 : EstimatorParams) (cs : List Config) (cfg : Config),
        tunedOf (runCalls cvs reg0 (cs ++ [cfg])) = cfg) ∧
    (∃ (cvs : EstimatorParams → Except String (List ℚ))
       (c1 c2 : Config) (v1 v2 : ℚ),
        v1 < v2 ∧
        ∀ reg0 : EstimatorParams,
          (objective cvs reg0 c1).2.2 = Except.ok v1 ∧
          (objective cvs (runCalls cvs reg0 [c1]) c2).2.2 = Except.ok v2 ∧
          tunedOf (runCalls cvs reg0 [c1, c2]) = c2) := by
  refine ⟨?_, ?_, ?_⟩
  · intro cvs reg cfg
    rw [objective_state]
    rfl
  · intro cvs reg0 cs cfg
    simp only [runCalls, List.foldl_append, List.foldl_cons, List.foldl_nil]
    rw [objective_state]
    rfl
  · refine ⟨fun p => Except.ok [if p.max_depth = 1 then (-1 : ℚ) else -5],
      ⟨1, 1/10, 13, 2, 1⟩, ⟨2, 1/10, 13, 2, 1⟩,
      -(listMean [-1]), -(listMean [-5]), by norm_num [listMean], ?_⟩
    intro reg0
    exact ⟨rfl, rfl, rfl⟩

/-- C3: the notebook's top-level statements, with imports and the
matplotlib magic set aside, pass through exactly the six flow phases in
the claimed order, and every statement outside those phases is an import
or a magic (no original computation between or outside the steps). -/
theorem notebook_flow_order (nf : Int) :
    collapseRuns ((allStmts nf).filterMap phaseOf) =
      [Phase.loadData, Phase.buildEstimator, Phase.declareBounds,
       Phase.defineObj, Phase.optimize, Phase.report] ∧
    (allStmts nf).all (fun s => (phaseOf s).isSome || isImportOrMagic s) = true :=
  ⟨rfl, rfl⟩

/-- C4: `gp_minimize` is called exactly once in the whole notebook, with
the user-defined `objective`, the declared `space` (which has five
dimensions), `n_calls=50` and `random_state=0`. -/
theorem gp_minimize_single_call (nf : Int) :
    gpMinimizeCalls (allStmts nf) = [("objective", "space", 50, 0)] ∧
    (spaceDecls (allStmts nf)).map (fun p => (p.1, p.2.length)) =
      [("space", 5)] :=
  ⟨rfl, rfl⟩

/-- C7: the only parallelism-related act anywhere in the notebook is
passing `n_jobs=-1` to the `cross_val_score` call. -/
theorem parallelism_single_flag (nf : Int) :
    njobsFlags (allStmts nf) = [("cross_val_score", -1)] := rfl

/-- C5: the declared space has exactly five dimensions, each with the
claimed explicit finite bounds, and (given the dataset has at least one
feature) every dimension satisfies lower ≤ upper. -/
theorem space_five_bounded (nf : Int) (h : 1 ≤ nf) :
    (space nf).length = 5 ∧
    (space nf).map (fun d => (dimName d, dimLow d, dimHigh d)) =
      [("max_depth", (1 : ℚ), (5 : ℚ)),
       ("learning_rate", (1/100000 : ℚ), (1 : ℚ)),
       ("max_features", (1 : ℚ), (nf : ℚ)),
       ("min_samples_split", (2 : ℚ), (100 : ℚ)),
       ("min_samples_leaf", (1 : ℚ), (100 : ℚ))] ∧
    ∀ d ∈ space nf, dimLow d ≤ dimHigh d := by
  refine ⟨rfl, ?_, ?_⟩
  · norm_num [space, dimName, dimLow, dimHigh]
  · intro d hd
    simp only [space, List.mem_cons, List.not_mem_nil, or_false] at hd
    rcases hd with rfl | rfl | rfl | rfl | rfl
    · norm_num [dimLow, dimHigh]
    · norm_num [dimLow, dimHigh]
    · simp only [dimLow, dimHigh]
      exact_mod_cast h
    · norm_num [dimLow, dimHigh]
    · norm_num [dimLow, dimHigh]

/-- Witness for C5 at the notebook's actual feature count (the Boston
housing data has 13 features). -/
theorem space_five_bounded_witness :
    (1 : Int) ≤ 13 ∧
    ((space 13).length = 5 ∧
     (space 13).map (fun d => (dimName d, dimLow d, dimHigh d)) =
       [("max_depth", (1 : ℚ), (5 : ℚ)),
        ("learning_rate", (1/100000 : ℚ), (1 : ℚ)),
        ("max_features", (1 : ℚ), ((13 : Int) : ℚ)),
        ("min_samples_split", (2 : ℚ), (100 : ℚ)),
        ("min_samples_leaf", (1 : ℚ), (100 : ℚ))] ∧
     ∀ d ∈ space 13, dimLow d ≤ dimHigh d) :=
  ⟨by norm_num, space_five_bounded 13 (by norm_num)⟩

/-- C10: `use_named_args(space)` pairs the i-th coordinate of a point
with the name of the i-th declared dimension, so the coordinates are
read in declaration order as `max_depth`, `learning_rate`,
`max_features`, `min_samples_split`, `min_samples_leaf`. -/
theorem use_named_args_order (nf : Int) (α : Type) (a b c d e : α) :
    (space nf).map dimName =
      ["max_depth", "learning_rate", "max_features",
       "min_samples_split", "min_samples_leaf"] ∧
    use_named_args (space nf) [a, b, c, d, e] =
      [("max_depth", a), ("learning_rate", b), ("max_features", c),
       ("min_samples_split", d), ("min_samples_leaf", e)] :=
  ⟨rfl, rfl⟩

end SkoptExample
